import Mathlib

/-!
Verification development for the membersphere membership-management backend
(src/membership_backend/src/api). The Python source is shallowly embedded:

* SQLAlchemy rows become Lean structures, the database becomes a `DB` record
  of row lists plus the association tables, mirroring `models.py`.
* Handler bodies from `auth.py`, `membership.py` and `settings.py` become
  pure functions threading the `DB` state explicitly; `raise HTTPException`
  becomes an `Except`-style error value returned together with the state in
  effect when the exception escapes.
* JWTs (python-jose, HS256) are embedded as a payload plus the signing key
  used at encode time; `jwt.decode` succeeds exactly when the supplied key
  equals the encoding key and the `exp` claim is not in the past
  (python-jose raises `ExpiredSignatureError` when `exp < now`).
* bcrypt hashing is embedded as an injective tagging of the plaintext with
  verification by equality, which preserves exactly the interface the
  handlers use (`verify_password p (hash_password p) = true`).
* The code stores the user id in the token as `str(user.id)` and parses it
  back with `int(token_data.sub)`; this round trip is the identity on the
  ids the backend issues, so the embedding carries the id as a `Nat`.
* SQL `Float` columns are embedded as `Rat`; no claim depends on floating
  point rounding, the fields are carried only for data-model completeness.
-/

set_option autoImplicit false

namespace MemberSphere

/-! ## Data model (models.py) -/

/-- Row of the `roles` table (models.py, class Role). -/
structure Role where
  id : Nat
  name : String
  description : String
deriving Repr, DecidableEq

/-- Row of the `users` table (models.py, class User). -/
structure User where
  id : Nat
  org_id : Option Nat
  email : String
  hashed_password : String
  first_name : String
  last_name : String
  phone : Option String
  is_active : Bool
  preferred_language : Option String
  created_at : Int
  parent_id : Option Nat
deriving Repr, DecidableEq

/-- Row of the `orgs` table (models.py, class Org). -/
structure Org where
  id : Nat
  name : String
  description : Option String
  subdomain : Option String
  primary_color : Option String
  secondary_color : Option String
  accent_color : Option String
  logo_url : Option String
  created_at : Int
deriving Repr, DecidableEq

/-- Row of the `groups` table (models.py, class Group). -/
structure Group where
  id : Nat
  org_id : Option Nat
  name : String
  description : Option String
deriving Repr, DecidableEq

/-- Row of the `events` table (models.py, class Event). -/
structure Event where
  id : Nat
  org_id : Option Nat
  title : String
  description : Option String
  date : Int
  start_time : Option String
  end_time : Option String
  location : Option String
  capacity : Option Nat
  fee : Option Rat
  organizer_id : Option Nat
  qr_code_url : Option String
deriving Repr, DecidableEq

/-- Row of the `subscriptions` table (models.py, class Subscription). -/
structure Subscription where
  id : Nat
  member_id : Nat
  start_date : Int
  end_date : Int
  amount : Rat
  status : String
deriving Repr, DecidableEq

/-- Row of the `payments` table (models.py, class Payment). -/
structure Payment where
  id : Nat
  member_id : Option Nat
  subscription_id : Option Nat
  amount : Rat
  payment_date : Int
  method : Option String
  status : String
  reference : Option String
deriving Repr, DecidableEq

/-- Row of the `transactions` table (models.py, class Transaction). -/
structure Transaction where
  id : Nat
  date : Int
  category : String
  description : Option String
  amount : Rat
  account : Option String
  transaction_type : String
  created_by : Option Nat
  created_at : Int
deriving Repr, DecidableEq

/-- The relational state: one list per table of models.py, plus the three
many-to-many association tables (`user_roles`, `user_groups`,
`event_attendees`), each a list of (left id, right id) pairs. -/
structure DB where
  orgs : List Org
  roles : List Role
  users : List User
  groups : List Group
  events : List Event
  subscriptions : List Subscription
  payments : List Payment
  transactions : List Transaction
  user_roles : List (Nat × Nat)
  user_groups : List (Nat × Nat)
  event_attendees : List (Nat × Nat)
deriving Repr, DecidableEq

/-! ## Error taxonomy

Each `raise HTTPException` site is classified by the error taxonomy of the
specification: `unauthenticated` for 401 sites, `forbidden` for 403 sites,
`notFound` for missing referenced entities, `conflict` for the
duplicate-unique-field 400 sites ("already exists" / "already registered"),
and `internalError` for an exception escaping a handler uncaught (HTTP 500).
-/

inductive ApiError where
  | unauthenticated
  | forbidden
  | notFound
  | conflict
  | internalError
deriving Repr, DecidableEq

/-! ## JWT and password embedding (auth.py utility functions) -/

/-- Decoded claims of an issued token (auth.py `create_access_token` data
plus the `exp` claim; validated against openapi_schemas.TokenPayload). The
subject is carried as the user id itself: the code writes `str(user.id)` and
reads it back with `int(...)`, an identity round trip. -/
structure TokenPayload where
  sub : Nat
  exp : Int
  roles : List String
  org_id : Option Nat
deriving Repr, DecidableEq

/-- An encoded JWT: the payload together with the key it was signed with.
Signature verification at decode time is equality of keys (HS256 is
symmetric). -/
structure Jwt where
  payload : TokenPayload
  key : String
deriving Repr, DecidableEq

/-- Default expiry from auth.py: 24 hours, in minutes. -/
def JWT_ACCESS_TOKEN_EXPIRE_MINUTES : Int := 60 * 24

/-- Embedding of auth.py `hash_password` (bcrypt modeled as injective
tagging; only the verify relation matters to the handlers). -/
def hash_password (password : String) : String :=
  "bcrypt$" ++ password

/-- Embedding of auth.py `verify_password`. -/
def verify_password (plain_password hashed_password : String) : Bool :=
  hash_password plain_password == hashed_password

/-- Embedding of auth.py `create_access_token`: copies the data claims and
adds `exp = now + delta` (default 24h). `now` is the clock read by
`datetime.utcnow()`. -/
def create_access_token (key : String) (sub : Nat) (roles : List String)
    (org_id : Option Nat) (now : Int) (expires_delta : Option Int) : Jwt :=
  let expire : Int :=
    match expires_delta with
    | some d => now + d
    | none => now + JWT_ACCESS_TOKEN_EXPIRE_MINUTES * 60
  { payload := { sub := sub, exp := expire, roles := roles, org_id := org_id },
    key := key }

/-- Embedding of `jose.jwt.decode(token, key, algorithms=[HS256])`:
fails when the signature does not verify under `key`, fails with
`ExpiredSignatureError` when the embedded `exp` claim is in the past
(`exp < now`), otherwise returns the claims. -/
def jwt_decode (token : Jwt) (key : String) (now : Int) : Option TokenPayload :=
  if token.key = key then
    if token.payload.exp < now then none
    else some token.payload
  else none

/-! ## Authentication logic (auth.py) -/

/-- Role rows associated to a user through the `user_roles` table
(the `User.roles` relationship). -/
def rolesOf (db : DB) (u : User) : List Role :=
  db.roles.filter (fun r => db.user_roles.contains (u.id, r.id))

/-- Embedding of auth.py `get_roles_for_user`: the role names of the user
(the empty-collection branch returns the same empty list). -/
def get_roles_for_user (db : DB) (u : User) : List String :=
  (rolesOf db u).map Role.name

/-- Embedding of auth.py `authenticate_user`: first user row matching the
email; `None` unless the row exists, is active and the password verifies. -/
def authenticate_user (db : DB) (email password : String) : Option User :=
  match db.users.find? (fun u => u.email == email) with
  | none => none
  | some user =>
    if user.is_active && verify_password password user.hashed_password then
      some user
    else none

/-- Embedding of auth.py `get_user`: first user row with the given id. -/
def get_user (db : DB) (user_id : Nat) : Option User :=
  db.users.find? (fun u => u.id == user_id)

/-- Embedding of auth.py `get_current_user`: 401 when the token is missing,
fails to decode (bad signature or expired), its subject resolves to no user
row, or the resolved user is inactive; otherwise the live user row. -/
def get_current_user (db : DB) (key : String) (token : Option Jwt)
    (now : Int) : Except ApiError User :=
  match token with
  | none => .error .unauthenticated
  | some t =>
    match jwt_decode t key now with
    | none => .error .unauthenticated
    | some payload =>
      match get_user db payload.sub with
      | none => .error .unauthenticated
      | some user =>
        if user.is_active then .ok user
        else .error .unauthenticated

/-- Embedding of the dependency body built by auth.py `rbac_required`,
applied to an already-authenticated user: 403 unless some role name of the
live user is in the allow-list. -/
def rbac_check (db : DB) (allowed_roles : List String) (current_user : User) :
    Except ApiError User :=
  if (get_roles_for_user db current_user).any
      (fun role => allowed_roles.contains role) then
    .ok current_user
  else .error .forbidden

/-- Embedding of a request passing through `Depends(get_current_user)`
followed by the `rbac_required(*allowed_roles)` dependency body. -/
def rbac_required (db : DB) (key : String) (allowed_roles : List String)
    (token : Option Jwt) (now : Int) : Except ApiError User :=
  match get_current_user db key token now with
  | .error e => .error e
  | .ok user => rbac_check db allowed_roles user

/-- Embedding of the auth.py `login` endpoint: authenticate by form
username/password, then issue a token whose claims are the user id, the
live role-name list and the org id, with the default expiry. -/
def login (db : DB) (key : String) (username password : String) (now : Int) :
    Except ApiError Jwt :=
  match authenticate_user db username password with
  | none => .error .unauthenticated
  | some user =>
    .ok (create_access_token key user.id (get_roles_for_user db user)
      user.org_id now none)

/-! ## Request schemas

The repository has two distinct Pydantic modules both defining `UserCreate`:
`openapi_schemas.UserCreate` (used by the auth.py `signup` endpoint, with a
single required `role` name and no `org_id`/`roles`/`parent_id` attribute)
and `schemas.UserCreate` (used by membership.py `create_user` and
`batch_import_users`, with `org_id`, a `roles` name list and `parent_id`).
They are embedded in matching namespaces.
-/

namespace openapi_schemas

/-- Embedding of openapi_schemas.UserCreate (signup request body). -/
structure UserCreate where
  email : String
  first_name : String
  last_name : String
  phone : Option String
  password : String
  role : String
deriving Repr, DecidableEq

/-- Embedding of openapi_schemas.UserOut as returned by signup (the fields
the claims inspect). -/
structure UserOut where
  id : Nat
  email : String
  first_name : String
  last_name : String
  phone : Option String
  is_active : Bool
  roles : List String
  groups : List Nat
deriving Repr, DecidableEq

end openapi_schemas

namespace schemas

/-- Embedding of schemas.UserCreate (membership create/batch request body).
The `roles` field defaults to the empty list in the source. -/
structure UserCreate where
  email : String
  first_name : String
  last_name : String
  phone : Option String
  preferred_language : Option String
  password : String
  org_id : Option Nat
  roles : List String
  parent_id : Option Nat
deriving Repr, DecidableEq

/-- Embedding of schemas.OrgCreate. -/
structure OrgCreate where
  name : String
  description : Option String
  subdomain : Option String
  primary_color : Option String
  secondary_color : Option String
  accent_color : Option String
  logo_url : Option String
deriving Repr, DecidableEq

end schemas

/-! ## Fresh primary keys

Autoincrement primary keys are embedded as one more than the largest id in
the table, which is fresh and matches the monotone ids the engine hands
out; no claim depends on the concrete numbering.
-/

/-- Fresh primary key for an insert into `users`. -/
def fresh_user_id (db : DB) : Nat :=
  db.users.foldr (fun u m => max u.id m) 0 + 1

/-- Fresh primary key for an insert into `orgs`. -/
def fresh_org_id (db : DB) : Nat :=
  db.orgs.foldr (fun o m => max o.id m) 0 + 1

/-- Fresh primary key for an insert into `roles`. -/
def fresh_role_id (db : DB) : Nat :=
  db.roles.foldr (fun r m => max r.id m) 0 + 1

/-! ## Organization CRUD (membership.py) -/

/-- Embedding of membership.py `create_org`: 400 `Conflict` when an org row
with the same name exists, otherwise insert and return the row. (The unique
`subdomain` column is not checked by the handler; no claim exercises a
duplicate subdomain.) -/
def create_org (db : DB) (org_in : schemas.OrgCreate) (now : Int) :
    Except ApiError Org × DB :=
  if db.orgs.any (fun o => o.name == org_in.name) then
    (.error .conflict, db)
  else
    let org : Org :=
      { id := fresh_org_id db
        name := org_in.name
        description := org_in.description
        subdomain := org_in.subdomain
        primary_color := org_in.primary_color
        secondary_color := org_in.secondary_color
        accent_color := org_in.accent_color
        logo_url := org_in.logo_url
        created_at := now }
    (.ok org, { db with orgs := db.orgs ++ [org] })

/-- Cascade semantics of `db.delete(org)` in membership.py `delete_org`.
The relationships on Org carry `passive_deletes=True` and the collections
are not loaded by the handler, so the declared foreign-key delete policies
of models.py apply:

* `users.org_id` has `ondelete="SET NULL"`: users of the org are detached,
  not deleted;
* `groups.org_id` and `events.org_id` have `ondelete="CASCADE"`: groups and
  events of the org are deleted;
* `user_groups.group_id` and `event_attendees.event_id` have
  `ondelete="CASCADE"`: association rows of a deleted group or event are
  deleted.

Subscriptions, payments and transactions reference only users, which
survive, so those tables are untouched. -/
def delete_org_state (db : DB) (oid : Nat) : DB :=
  { db with
    orgs := db.orgs.filter (fun o => o.id != oid)
    users := db.users.map (fun u =>
      if u.org_id == some oid then { u with org_id := none } else u)
    groups := db.groups.filter (fun g => g.org_id != some oid)
    events := db.events.filter (fun e => e.org_id != some oid)
    user_groups := db.user_groups.filter (fun p =>
      !(db.groups.any (fun g => g.id == p.2 && g.org_id == some oid)))
    event_attendees := db.event_attendees.filter (fun p =>
      !(db.events.any (fun e => e.id == p.2 && e.org_id == some oid))) }

/-- Embedding of membership.py `delete_org`: 404 when the org row is absent,
otherwise delete it with the cascade semantics above. -/
def delete_org (db : DB) (oid : Nat) : Except ApiError Unit × DB :=
  match db.orgs.find? (fun o => o.id == oid) with
  | none => (.error .notFound, db)
  | some _ => (.ok (), delete_org_state db oid)

/-- Check that an optional foreign-key column either is null or references
one of the listed primary keys. -/
def opt_fk_ok (r : Option Nat) (ids : List Nat) : Bool :=
  match r with
  | none => true
  | some i => ids.contains i

/-- Referential integrity of a database state: every foreign-key column of
every table of models.py references an existing row (or is null where the
column is nullable). -/
def no_dangling_fk (db : DB) : Bool :=
  let oids := db.orgs.map Org.id
  let uids := db.users.map User.id
  let gids := db.groups.map Group.id
  let eids := db.events.map Event.id
  let sids := db.subscriptions.map Subscription.id
  let rids := db.roles.map Role.id
  db.users.all (fun u =>
    opt_fk_ok u.org_id oids && opt_fk_ok u.parent_id uids) &&
  db.groups.all (fun g => opt_fk_ok g.org_id oids) &&
  db.events.all (fun e =>
    opt_fk_ok e.org_id oids && opt_fk_ok e.organizer_id uids) &&
  db.subscriptions.all (fun s => uids.contains s.member_id) &&
  db.payments.all (fun p =>
    opt_fk_ok p.member_id uids && opt_fk_ok p.subscription_id sids) &&
  db.transactions.all (fun t => opt_fk_ok t.created_by uids) &&
  db.user_roles.all (fun p => uids.contains p.1 && rids.contains p.2) &&
  db.user_groups.all (fun p => uids.contains p.1 && gids.contains p.2) &&
  db.event_attendees.all (fun p => uids.contains p.1 && eids.contains p.2)

/-! ## User CRUD and batch import (membership.py) -/

/-- Role rows looked up by name for a requested role-name list: each name is
queried in order and silently skipped when absent (membership.py
`create_user` / `batch_import_users` role loop). -/
def lookup_roles (db : DB) (names : List String) : List Role :=
  names.filterMap (fun rn => db.roles.find? (fun r => r.name == rn))

/-- The insert performed by membership.py `create_user` and by one item of
`batch_import_users` once the duplicate-email check has passed: a new
active user row (org reference kept only when the org row exists), then the
role assignment `user.roles = role_objs or []`. -/
def insert_user (db : DB) (user_in : schemas.UserCreate) (now : Int) :
    User × DB :=
  let org : Option Org :=
    match user_in.org_id with
    | none => none
    | some oid => db.orgs.find? (fun o => o.id == oid)
  let role_objs := lookup_roles db user_in.roles
  let uid := fresh_user_id db
  let user : User :=
    { id := uid
      org_id := if org.isSome then user_in.org_id else none
      email := user_in.email
      hashed_password := hash_password user_in.password
      first_name := user_in.first_name
      last_name := user_in.last_name
      phone := user_in.phone
      is_active := true
      preferred_language := user_in.preferred_language
      created_at := now
      parent_id := user_in.parent_id }
  (user,
    { db with
      users := db.users ++ [user]
      user_roles := db.user_roles ++ role_objs.map (fun r => (uid, r.id)) })

/-- Embedding of membership.py `create_user`: 400 `Conflict` when a user row
with the same email exists, otherwise insert. -/
def create_user (db : DB) (user_in : schemas.UserCreate) (now : Int) :
    Except ApiError User × DB :=
  if db.users.any (fun u => u.email == user_in.email) then
    (.error .conflict, db)
  else
    let (user, db2) := insert_user db user_in now
    (.ok user, db2)

/-- Loop of membership.py `batch_import_users`: each item is attempted
independently; an item whose email already belongs to a user row (including
rows committed by earlier items of the same batch) is counted as failed and
skipped, every other item is inserted and counted. The surrounding
`try/except` has nothing else to catch in this state model. -/
def batch_import_loop (now : Int) :
    DB → List schemas.UserCreate → Nat → Nat → (Nat × Nat) × DB
  | db, [], inserted, failed => ((inserted, failed), db)
  | db, user_in :: rest, inserted, failed =>
    if db.users.any (fun u => u.email == user_in.email) then
      batch_import_loop now db rest inserted (failed + 1)
    else
      batch_import_loop now (insert_user db user_in now).2 rest
        (inserted + 1) failed

/-- Embedding of membership.py `batch_import_users`: returns the
`(inserted, failed)` counters and the final state. -/
def batch_import_users (db : DB) (users_in : List schemas.UserCreate)
    (now : Int) : (Nat × Nat) × DB :=
  batch_import_loop now db users_in 0 0

/-- Number of records of a batch whose email duplicates one of `emails`
(the pre-existing user emails) or the email of an earlier record of the
batch. -/
def dup_email_count (emails : List String) :
    List schemas.UserCreate → Nat
  | [] => 0
  | u :: rest =>
    (if emails.contains u.email then 1 else 0) +
      dup_email_count (u.email :: emails) rest

/-- Embedding of membership.py `remove_admin_role`: 404 when the user row or
the role row is absent or the role is not assigned; otherwise the
association row is removed. -/
def remove_admin_role (db : DB) (user_id : Nat) (role_name : String) :
    Except ApiError User × DB :=
  match db.users.find? (fun u => u.id == user_id) with
  | none => (.error .notFound, db)
  | some user =>
    match db.roles.find? (fun r => r.name == role_name) with
    | none => (.error .notFound, db)
    | some role =>
      if db.user_roles.contains (user.id, role.id) then
        (.ok user,
          { db with
            user_roles := db.user_roles.filter (fun p =>
              p != (user.id, role.id)) })
      else (.error .notFound, db)

/-! ## Signup (auth.py) -/

/-- The five default role names seeded by signup when the role table has no
Member row. -/
def DEFAULT_ROLE_NAMES : List String :=
  ["Super Admin", "State Admin", "District Admin", "Branch Admin", "Member"]

/-- Role seeding performed inside signup when no Member role exists: one row
per default name, appended in order. -/
def seed_default_roles (db : DB) : DB :=
  DEFAULT_ROLE_NAMES.foldl
    (fun acc rn =>
      { acc with
        roles := acc.roles ++
          [{ id := fresh_role_id acc, name := rn,
             description := rn ++ " role" }] })
    db

/-- The user insert plus single role assignment performed by signup once a
role row has been chosen. signup.UserCreate has no `org_id` attribute, so
the `hasattr(user_in, "org_id")` branch is never taken and the new user has
no org. -/
def signup_insert (db : DB) (user_in : openapi_schemas.UserCreate)
    (role_obj : Role) (now : Int) : openapi_schemas.UserOut × DB :=
  let uid := fresh_user_id db
  let user : User :=
    { id := uid
      org_id := none
      email := user_in.email
      hashed_password := hash_password user_in.password
      first_name := user_in.first_name
      last_name := user_in.last_name
      phone := user_in.phone
      is_active := true
      preferred_language := none
      created_at := now
      parent_id := none }
  let db2 : DB :=
    { db with
      users := db.users ++ [user]
      user_roles := db.user_roles ++ [(uid, role_obj.id)] }
  ({ id := uid
     email := user.email
     first_name := user.first_name
     last_name := user.last_name
     phone := user.phone
     is_active := user.is_active
     roles := get_roles_for_user db2 user
     groups := [] }, db2)

/-- Embedding of the auth.py `signup` endpoint. In order:duplicate-email
check (400, `Conflict` class); role lookup by the requested name; fallback
lookup of the Member role; when even Member is absent, the handler seeds
the five default roles and commits, then re-queries with
`filter(Role.name == user_in.role or "Member")` — by Python operator
precedence the filter argument degenerates to a raw string, which the query
layer rejects, so the request dies with an uncaught exception after the
seeded roles were committed. -/
def signup (db : DB) (user_in : openapi_schemas.UserCreate) (now : Int) :
    Except ApiError openapi_schemas.UserOut × DB :=
  if db.users.any (fun u => u.email == user_in.email) then
    (.error .conflict, db)
  else
    match db.roles.find? (fun r => r.name == user_in.role) with
    | some role_obj =>
      let (out, db2) := signup_insert db user_in role_obj now
      (.ok out, db2)
    | none =>
      match db.roles.find? (fun r => r.name == "Member") with
      | some role_obj =>
        let (out, db2) := signup_insert db user_in role_obj now
        (.ok out, db2)
      | none => (.error .internalError, seed_default_roles db)

/-! ## Portal settings (settings.py) -/

/-- Settings value: the embedding of the `Dict[str, Any]` request body as a
key-value list (the handlers treat it opaquely, storing and returning it
unchanged). -/
abbrev SettingsDict := List (String × String)

/-- The per-process `ORG_SETTINGS_STORE` dictionary, keyed by org id. -/
abbrev SettingsStore := List (Nat × SettingsDict)

/-- Initial value of `ORG_SETTINGS_STORE`: the empty dictionary. -/
def ORG_SETTINGS_STORE_initial : SettingsStore := []

/-- Python dictionary assignment `store[k] = v`: replace the binding of `k`
when present, append it otherwise. -/
def store_set (store : SettingsStore) (k : Nat) (v : SettingsDict) :
    SettingsStore :=
  match store with
  | [] => [(k, v)]
  | (k0, v0) :: rest =>
    if k0 == k then (k, v) :: rest else (k0, v0) :: store_set rest k v

/-- Embedding of settings.py `get_settings` (the handler body after the
role-gate dependency has admitted the caller):
`ORG_SETTINGS_STORE.get(org_id, \x7b\x7d)`. -/
def get_settings (store : SettingsStore) (org_id : Nat) : SettingsDict :=
  match store.find? (fun p => p.1 == org_id) with
  | some p => p.2
  | none => []

/-- Embedding of settings.py `update_settings` (the handler body after the
role-gate dependency has admitted the caller):
`ORG_SETTINGS_STORE[org_id] = settings`. -/
def update_settings (store : SettingsStore) (org_id : Nat)
    (settings : SettingsDict) : SettingsStore :=
  store_set store org_id settings

/-- A sequence of `update_settings` calls applied to the initial store. -/
def apply_updates (trace : List (Nat × SettingsDict)) : SettingsStore :=
  trace.foldl (fun st p => update_settings st p.1 p.2)
    ORG_SETTINGS_STORE_initial

/-! ## Basic lemmas about the embedded operations -/

theorem jwt_decode_eq_some {t : Jwt} {key : String} {now : Int}
    {p : TokenPayload} (h : jwt_decode t key now = some p) :
    p = t.payload ∧ t.key = key ∧ ¬ t.payload.exp < now := by
  unfold jwt_decode at h
  by_cases hk : t.key = key
  · rw [if_pos hk] at h
    by_cases he : t.payload.exp < now
    · rw [if_pos he] at h; cases h
    · rw [if_neg he] at h
      exact ⟨(Option.some_inj.mp h).symm, hk, he⟩
  · rw [if_neg hk] at h; cases h

theorem authenticate_user_spec {db : DB} {email password : String} {u : User}
    (h : authenticate_user db email password = some u) :
    u ∈ db.users ∧ u.is_active = true ∧ u.email = email := by
  unfold authenticate_user at h
  split at h
  · cases h
  · rename_i w hf
    split at h
    · rename_i hc
      cases h
      refine ⟨List.mem_of_find?_eq_some hf, ?_, ?_⟩
      · exact (Bool.and_eq_true _ _ |>.mp hc).1
      · simpa using List.find?_some hf
    · cases h

theorem get_user_of_mem {db : DB} {u : User}
    (hids : (db.users.map User.id).Nodup) (hm : u ∈ db.users) :
    get_user db u.id = some u := by
  unfold get_user
  have hsome : (db.users.find? (fun x => x.id == u.id)).isSome := by
    rw [List.find?_isSome]
    exact ⟨u, hm, by simp⟩
  obtain ⟨w, hw⟩ := Option.isSome_iff_exists.mp hsome
  have hwm := List.mem_of_find?_eq_some hw
  have hwid : w.id = u.id := by simpa using List.find?_some hw
  have hwu : w = u := List.inj_on_of_nodup_map hids hwm hm hwid
  rw [hw, hwu]

/-! ## Claim C2 -/

/-- C2: a token whose embedded expiry timestamp is in the past fails
validation with Unauthenticated, for every database state and every
verification key — in particular regardless of whether the signature is
valid (`t.key = key`) or not. -/
theorem C2_expired_token_rejected (db : DB) (key : String) (t : Jwt)
    (now : Int) (hexp : t.payload.exp < now) :
    get_current_user db key (some t) now = .error .unauthenticated := by
  unfold get_current_user jwt_decode
  by_cases hk : t.key = key
  · simp [hk, hexp]
  · simp [hk]

/-- Witness for C2 at a concrete expired token. -/
theorem C2_expired_token_rejected_witness :
    get_current_user
      { orgs := [], roles := [], users := [], groups := [], events := [],
        subscriptions := [], payments := [], transactions := [],
        user_roles := [], user_groups := [], event_attendees := [] }
      "devsecretkey"
      (some { payload := { sub := 1, exp := 5, roles := [], org_id := none },
              key := "devsecretkey" })
      100 = .error .unauthenticated :=
  C2_expired_token_rejected _ _ _ _ (by decide)

/-! ## Claim C4 -/

/-- C4: the role gate fails with Forbidden exactly when the set of role
names currently assigned to the user has empty intersection with the
allow-list; and in particular there is no hierarchy inference: a user whose
only role is Super Admin is denied on any route whose allow-list does not
contain Super Admin. -/
theorem C4_role_gate_iff :
    (∀ (db : DB) (allowed : List String) (u : User),
      rbac_check db allowed u = .error .forbidden ↔
        ∀ r ∈ get_roles_for_user db u, r ∉ allowed) ∧
    (∀ (db : DB) (allowed : List String) (u : User),
      get_roles_for_user db u = ["Super Admin"] →
      "Super Admin" ∉ allowed →
      rbac_check db allowed u = .error .forbidden) := by
  have hmain : ∀ (db : DB) (allowed : List String) (u : User),
      rbac_check db allowed u = .error .forbidden ↔
        ∀ r ∈ get_roles_for_user db u, r ∉ allowed := by
    intro db allowed u
    unfold rbac_check
    by_cases hc : ((get_roles_for_user db u).any
        fun role => allowed.contains role) = true
    · rw [if_pos hc]
      simp only [List.any_eq_true, List.contains, List.elem_eq_mem,
        decide_eq_true_eq] at hc
      obtain ⟨r, hr, hra⟩ := hc
      exact ⟨fun h => Except.noConfusion h, fun h => absurd hra (h r hr)⟩
    · rw [if_neg hc]
      simp only [List.any_eq_true, List.contains, List.elem_eq_mem,
        decide_eq_true_eq] at hc
      push_neg at hc
      exact ⟨fun _ => hc, fun _ => rfl⟩
  refine ⟨hmain, fun db allowed u hroles hna => ?_⟩
  rw [hmain db allowed u, hroles]
  simpa using hna

/-- Witness for C4: a Super Admin user denied on a Member-only route. -/
theorem C4_role_gate_iff_witness :
    rbac_check
      { orgs := [], roles := [⟨1, "Super Admin", "sa"⟩],
        users := [], groups := [], events := [],
        subscriptions := [], payments := [], transactions := [],
        user_roles := [(7, 1)], user_groups := [], event_attendees := [] }
      ["Member"]
      { id := 7, org_id := none, email := "sa@x.y", hashed_password := "h",
        first_name := "s", last_name := "a", phone := none,
        is_active := true, preferred_language := none, created_at := 0,
        parent_id := none } = .error .forbidden :=
  C4_role_gate_iff.2 _ _ _ (by decide) (by decide)

/-! ## Claim C5 -/

/-- C5: the role gate decides from the live role state, not from the role
snapshot cached in the token: when the token still lists a role that is in
the allow-list but the role names currently assigned to the resolved user
no longer intersect the allow-list (the role was revoked after issuance),
the request is denied with Forbidden. -/
theorem C5_live_roles_decide (db : DB) (key : String) (t : Jwt) (now : Int)
    (allowed : List String) (u : User)
    (hval : get_current_user db key (some t) now = .ok u)
    (_hcached : ∃ r ∈ t.payload.roles, r ∈ allowed)
    (hlive : ∀ r ∈ get_roles_for_user db u, r ∉ allowed) :
    rbac_required db key allowed (some t) now = .error .forbidden := by
  have hc : ¬ ((get_roles_for_user db u).any
      fun role => allowed.contains role) = true := by
    simp only [List.any_eq_true, List.contains, List.elem_eq_mem,
      decide_eq_true_eq]
    push_neg
    exact hlive
  unfold rbac_required
  rw [hval]
  show rbac_check db allowed u = .error .forbidden
  unfold rbac_check
  rw [if_neg hc]

/-- Witness for C5: a token caching the Super Admin role for a user whose
live role list is empty is denied on a Super Admin route. -/
theorem C5_live_roles_decide_witness :
    rbac_required
      { orgs := [], roles := [⟨1, "Super Admin", "sa"⟩],
        users := [{ id := 7, org_id := none, email := "sa@x.y",
                    hashed_password := "h", first_name := "s",
                    last_name := "a", phone := none, is_active := true,
                    preferred_language := none, created_at := 0,
                    parent_id := none }],
        groups := [], events := [], subscriptions := [], payments := [],
        transactions := [], user_roles := [], user_groups := [],
        event_attendees := [] }
      "devsecretkey" ["Super Admin"]
      (some { payload := { sub := 7, exp := 100, roles := ["Super Admin"],
                           org_id := none },
              key := "devsecretkey" })
      50 = .error .forbidden :=
  C5_live_roles_decide _ _ _ _ _
    { id := 7, org_id := none, email := "sa@x.y", hashed_password := "h",
      first_name := "s", last_name := "a", phone := none, is_active := true,
      preferred_language := none, created_at := 0, parent_id := none }
    rfl ⟨"Super Admin", by decide, by decide⟩ (by decide)

/-! ## Claim C1 -/

/-- C1: for an active user, a token issued at login for that user validates
successfully before its expiry under the same signing key and resolves to
that same user record. `hauth` says the login call authenticated that user
(so the user is active and the password matched), `hlogin` is the token it
issued, `hids` is primary-key uniqueness of the users table. -/
theorem C1_login_token_validates (db : DB) (key email password : String)
    (u : User) (tok : Jwt) (now vt : Int)
    (hids : (db.users.map User.id).Nodup)
    (hauth : authenticate_user db email password = some u)
    (hlogin : login db key email password now = .ok tok)
    (hbefore : vt < tok.payload.exp) :
    get_current_user db key (some tok) vt = .ok u := by
  obtain ⟨hmem, hactive, -⟩ := authenticate_user_spec hauth
  unfold login at hlogin
  rw [hauth] at hlogin
  injection hlogin with h
  have hkey : tok.key = key := by rw [← h]; rfl
  have hsub : tok.payload.sub = u.id := by rw [← h]; rfl
  have hdec : jwt_decode tok key vt = some tok.payload := by
    unfold jwt_decode
    rw [if_pos hkey, if_neg (by omega)]
  simp [get_current_user, hdec, hsub, get_user_of_mem hids hmem, hactive]

/-- Witness for C1: a concrete one-user database, a login at time 0 and a
validation at time 100 (expiry is 86400). -/
theorem C1_login_token_validates_witness :
    get_current_user
      { orgs := [], roles := [],
        users := [{ id := 1, org_id := none, email := "a@b.c",
                    hashed_password := "bcrypt$pw123456",
                    first_name := "a", last_name := "b", phone := none,
                    is_active := true, preferred_language := none,
                    created_at := 0, parent_id := none }],
        groups := [], events := [], subscriptions := [], payments := [],
        transactions := [], user_roles := [], user_groups := [],
        event_attendees := [] }
      "devsecretkey"
      (some { payload := { sub := 1, exp := 86400, roles := [],
                           org_id := none },
              key := "devsecretkey" })
      100 =
      .ok { id := 1, org_id := none, email := "a@b.c",
            hashed_password := "bcrypt$pw123456",
            first_name := "a", last_name := "b", phone := none,
            is_active := true, preferred_language := none,
            created_at := 0, parent_id := none } :=
  C1_login_token_validates _ "devsecretkey" "a@b.c" "pw123456" _ _ 0 100
    (by decide) rfl rfl (by decide)

/-! ## Claim C3 -/

/-- C3: a user with `is_active = false` can never authenticate: login with
that email fails with Unauthenticated, and validating any token whose
subject is that user fails with Unauthenticated, whatever the token claims
and whichever key it was signed with (deactivation invalidates previously
issued tokens on next use). `hemails` and `hids` are the uniqueness
invariants of the users table. -/
theorem C3_inactive_user_never_authenticates (db : DB)
    (key password : String) (u : User) (t : Jwt) (now : Int)
    (hmem : u ∈ db.users) (hinactive : u.is_active = false)
    (hemails : (db.users.map User.email).Nodup)
    (hids : (db.users.map User.id).Nodup)
    (hsub : t.payload.sub = u.id) :
    login db key u.email password now = .error .unauthenticated ∧
    get_current_user db key (some t) now = .error .unauthenticated := by
  constructor
  · have hnone : authenticate_user db u.email password = none := by
      unfold authenticate_user
      have hsome : (db.users.find? fun x => x.email == u.email).isSome := by
        rw [List.find?_isSome]
        exact ⟨u, hmem, by simp⟩
      obtain ⟨w, hw⟩ := Option.isSome_iff_exists.mp hsome
      have hwm := List.mem_of_find?_eq_some hw
      have hweq : w.email = u.email := by simpa using List.find?_some hw
      have hwu : w = u := List.inj_on_of_nodup_map hemails hwm hmem hweq
      subst hwu
      simp [hw, hinactive]
    unfold login
    simp [hnone]
  · cases hdec : jwt_decode t key now with
    | none => simp [get_current_user, hdec]
    | some p =>
      obtain ⟨hp, -, -⟩ := jwt_decode_eq_some hdec
      subst hp
      simp [get_current_user, hdec, hsub, get_user_of_mem hids hmem,
        hinactive]

/-- Witness for C3: a deactivated user, their still-unexpired valid-key
token, both rejected. -/
theorem C3_inactive_user_never_authenticates_witness :
    login
      { orgs := [], roles := [],
        users := [{ id := 1, org_id := none, email := "a@b.c",
                    hashed_password := "bcrypt$pw123456",
                    first_name := "a", last_name := "b", phone := none,
                    is_active := false, preferred_language := none,
                    created_at := 0, parent_id := none }],
        groups := [], events := [], subscriptions := [], payments := [],
        transactions := [], user_roles := [], user_groups := [],
        event_attendees := [] }
      "devsecretkey" "a@b.c" "pw123456" 0 = .error .unauthenticated ∧
    get_current_user
      { orgs := [], roles := [],
        users := [{ id := 1, org_id := none, email := "a@b.c",
                    hashed_password := "bcrypt$pw123456",
                    first_name := "a", last_name := "b", phone := none,
                    is_active := false, preferred_language := none,
                    created_at := 0, parent_id := none }],
        groups := [], events := [], subscriptions := [], payments := [],
        transactions := [], user_roles := [], user_groups := [],
        event_attendees := [] }
      "devsecretkey"
      (some { payload := { sub := 1, exp := 86400, roles := [],
                           org_id := none },
              key := "devsecretkey" })
      100 = .error .unauthenticated :=
  C3_inactive_user_never_authenticates
    { orgs := [], roles := [],
      users := [{ id := 1, org_id := none, email := "a@b.c",
                  hashed_password := "bcrypt$pw123456",
                  first_name := "a", last_name := "b", phone := none,
                  is_active := false, preferred_language := none,
                  created_at := 0, parent_id := none }],
      groups := [], events := [], subscriptions := [], payments := [],
      transactions := [], user_roles := [], user_groups := [],
      event_attendees := [] }
    "devsecretkey" "pw123456"
    { id := 1, org_id := none, email := "a@b.c",
      hashed_password := "bcrypt$pw123456",
      first_name := "a", last_name := "b", phone := none,
      is_active := false, preferred_language := none,
      created_at := 0, parent_id := none }
    { payload := { sub := 1, exp := 86400, roles := [], org_id := none },
      key := "devsecretkey" }
    100 (by decide) rfl (by decide) (by decide) rfl

/-! ## Claim C6 -/

theorem dup_email_count_cons_true {emails : List String}
    {u : schemas.UserCreate} (rest : List schemas.UserCreate)
    (hc : emails.contains u.email = true) :
    dup_email_count emails (u :: rest) =
      1 + dup_email_count (u.email :: emails) rest := by
  simp only [dup_email_count]
  rw [hc, if_pos rfl]

theorem dup_email_count_cons_false {emails : List String}
    {u : schemas.UserCreate} (rest : List schemas.UserCreate)
    (hc : emails.contains u.email = false) :
    dup_email_count emails (u :: rest) =
      dup_email_count (u.email :: emails) rest := by
  simp only [dup_email_count]
  rw [hc, if_neg (by simp)]
  omega

theorem dup_email_count_le (l : List schemas.UserCreate) :
    ∀ emails, dup_email_count emails l ≤ l.length := by
  induction l with
  | nil => intro emails; simp [dup_email_count]
  | cons u rest ih =>
    intro emails
    simp only [dup_email_count, List.length_cons]
    have := ih (u.email :: emails)
    split <;> omega

theorem insert_user_users (db : DB) (u : schemas.UserCreate) (now : Int) :
    (insert_user db u now).2.users =
      db.users ++ [(insert_user db u now).1] := rfl

theorem insert_user_email (db : DB) (u : schemas.UserCreate) (now : Int) :
    (insert_user db u now).1.email = u.email := rfl

theorem batch_import_loop_cons (now : Int) (db : DB)
    (u : schemas.UserCreate) (rest : List schemas.UserCreate) (i f : Nat) :
    batch_import_loop now db (u :: rest) i f =
      if (db.users.any fun x => x.email == u.email) = true
      then batch_import_loop now db rest i (f + 1)
      else batch_import_loop now (insert_user db u now).2 rest (i + 1) f :=
  rfl

theorem any_email_eq_contains_map (l : List User) (e : String) :
    (l.any fun x => x.email == e) = (l.map User.email).contains e := by
  induction l with
  | nil => rfl
  | cons a tl ih =>
    rw [List.any_cons, List.map_cons, List.contains_cons]
    by_cases he : e = a.email
    · subst he; simp
    · have h1 : (a.email == e) = false := by
        simp only [beq_eq_false_iff_ne, ne_eq]
        exact fun hx => he hx.symm
      have h2 : (e == a.email) = false := by
        simp only [beq_eq_false_iff_ne, ne_eq]
        exact he
      rw [h1, h2, Bool.false_or, Bool.false_or, ih]

theorem batch_import_loop_counts (now : Int) :
    ∀ (l : List schemas.UserCreate) (db : DB) (emails : List String)
      (i f : Nat),
      (∀ e : String, (db.users.any fun x => x.email == e) =
        emails.contains e) →
      (batch_import_loop now db l i f).1 =
        (i + (l.length - dup_email_count emails l),
         f + dup_email_count emails l) := by
  intro l
  induction l with
  | nil =>
    intro db emails i f hinv
    simp [batch_import_loop, dup_email_count]
  | cons u rest ih =>
    intro db emails i f hinv
    have hcontains : ∀ (e : String) (b : Bool),
        (u.email == e) = b → (e == u.email) = b := by
      intro e b hb
      by_cases he : e = u.email
      · subst he; simpa using hb
      · have : (u.email == e) = false := by
          simp only [beq_eq_false_iff_ne, ne_eq]
          exact fun hx => he hx.symm
        rw [this] at hb
        subst hb
        simp only [beq_eq_false_iff_ne, ne_eq]
        exact he
    rcases hc : (db.users.any fun x => x.email == u.email) with _ | _
    · -- the email is fresh: the record is inserted
      have hdup : emails.contains u.email = false := by rw [← hinv]; exact hc
      have hinv2 : ∀ e : String,
          ((insert_user db u now).2.users.any fun x => x.email == e) =
            (u.email :: emails).contains e := by
        intro e
        rw [insert_user_users, List.any_append, List.any_cons, List.any_nil,
          insert_user_email, hinv e, List.contains_cons]
        by_cases he : e = u.email
        · subst he; simp
        · have h1 : (u.email == e) = false := by
            simp only [beq_eq_false_iff_ne, ne_eq]
            exact fun hx => he hx.symm
          rw [h1, hcontains e false h1]
          simp
      rw [batch_import_loop_cons, hc, if_neg (by simp),
        ih _ _ _ _ hinv2, dup_email_count_cons_false rest hdup]
      have hle := dup_email_count_le rest (u.email :: emails)
      simp only [Prod.mk.injEq, List.length_cons]
      exact ⟨by omega, trivial⟩
    · -- the email is a duplicate: the record fails, state unchanged
      have hdup : emails.contains u.email = true := by rw [← hinv]; exact hc
      have hinv2 : ∀ e : String,
          (db.users.any fun x => x.email == e) =
            (u.email :: emails).contains e := by
        intro e
        rw [hinv e, List.contains_cons]
        by_cases he : e = u.email
        · subst he
          rw [hdup]
          simp
        · have h2 : (e == u.email) = false := by
            simp only [beq_eq_false_iff_ne, ne_eq]
            exact he
          rw [h2, Bool.false_or]
      rw [batch_import_loop_cons, hc, if_pos rfl, ih _ _ _ _ hinv2,
        dup_email_count_cons_true rest hdup]
      have hle := dup_email_count_le rest (u.email :: emails)
      simp only [Prod.mk.injEq, List.length_cons]
      exact ⟨by omega, by omega⟩

/-- C6: the batch import of `N` records, of which exactly `M` have an email
duplicating an existing user row or an earlier record of the batch, reports
`inserted = N - M` and `failed = M`; each item is processed independently
and a failed item leaves the remaining items unaffected. -/
theorem C6_batch_import_counts (db : DB)
    (users_in : List schemas.UserCreate) (now : Int) :
    (batch_import_users db users_in now).1 =
      (users_in.length -
        dup_email_count (db.users.map User.email) users_in,
       dup_email_count (db.users.map User.email) users_in) := by
  unfold batch_import_users
  rw [batch_import_loop_counts now users_in db (db.users.map User.email) 0 0
    (fun e => any_email_eq_contains_map db.users e)]
  simp

/-! ## Claim C9 -/

theorem get_settings_cons (k0 : Nat) (v0 : SettingsDict)
    (rest : SettingsStore) (k : Nat) :
    get_settings ((k0, v0) :: rest) k =
      if k0 == k then v0 else get_settings rest k := by
  unfold get_settings
  rcases h : (k0 == k) with _ | _ <;> simp [List.find?_cons, h]

theorem store_set_cons (k0 : Nat) (v0 : SettingsDict) (rest : SettingsStore)
    (k : Nat) (v : SettingsDict) :
    store_set ((k0, v0) :: rest) k v =
      if k0 == k then (k, v) :: rest else (k0, v0) :: store_set rest k v :=
  rfl

theorem get_settings_store_set_same (store : SettingsStore) (k : Nat)
    (v : SettingsDict) : get_settings (store_set store k v) k = v := by
  induction store with
  | nil => simp [store_set, get_settings_cons]
  | cons p rest ih =>
    obtain ⟨k0, v0⟩ := p
    rw [store_set_cons]
    rcases hk : (k0 == k) with _ | _
    · rw [if_neg (by simp [hk]), get_settings_cons, if_neg (by simp [hk])]
      exact ih
    · rw [if_pos (by simp [hk]), get_settings_cons, if_pos (by simp)]

theorem get_settings_store_set_other (store : SettingsStore) (k1 k : Nat)
    (v : SettingsDict) (hne : k1 ≠ k) :
    get_settings (store_set store k1 v) k = get_settings store k := by
  induction store with
  | nil =>
    show get_settings [(k1, v)] k = get_settings [] k
    rw [get_settings_cons, if_neg (by simpa using hne)]
  | cons p rest ih =>
    obtain ⟨k0, v0⟩ := p
    rw [store_set_cons]
    rcases hk : (k0 == k1) with _ | _
    · rw [if_neg (by simp [hk]), get_settings_cons, get_settings_cons]
      rcases hk0 : (k0 == k) with _ | _
      · simpa [hk0] using ih
      · simp [hk0]
    · rw [if_pos (by simp [hk]), get_settings_cons,
        if_neg (by simpa using hne), get_settings_cons]
      have hk01 : k0 = k1 := by simpa using hk
      rw [if_neg (by simpa [hk01] using hne)]

theorem get_settings_untouched (k : Nat) (trace : List (Nat × SettingsDict)) :
    ∀ (st : SettingsStore), (∀ p ∈ trace, p.1 ≠ k) →
      get_settings (trace.foldl (fun s p => update_settings s p.1 p.2) st) k =
        get_settings st k := by
  induction trace with
  | nil => intro st _; rfl
  | cons p rest ih =>
    intro st h
    simp only [List.foldl_cons]
    rw [ih _ (fun q hq => h q (List.mem_cons_of_mem p hq))]
    exact get_settings_store_set_other st p.1 k p.2
      (h p (List.mem_cons_self p rest))

/-- C9: reading the portal settings of an org immediately after writing
them returns exactly the written dictionary, and reading the settings of an
org id that no update of the trace ever touched returns the empty
dictionary. -/
theorem C9_settings_roundtrip (store : SettingsStore) (k k2 : Nat)
    (v : SettingsDict) (trace : List (Nat × SettingsDict))
    (huntouched : ∀ p ∈ trace, p.1 ≠ k2) :
    get_settings (update_settings store k v) k = v ∧
    get_settings (apply_updates trace) k2 = [] := by
  constructor
  · exact get_settings_store_set_same store k v
  · unfold apply_updates
    rw [get_settings_untouched k2 trace ORG_SETTINGS_STORE_initial huntouched]
    rfl

/-- Witness for C9 at a concrete store, update and trace. -/
theorem C9_settings_roundtrip_witness :
    get_settings
      (update_settings [(1, [("theme", "dark")])] 2 [("lang", "en")]) 2 =
      [("lang", "en")] ∧
    get_settings (apply_updates [(1, [("a", "b")]), (3, [("c", "d")])]) 2 =
      [] :=
  C9_settings_roundtrip [(1, [("theme", "dark")])] 2 2 [("lang", "en")]
    [(1, [("a", "b")]), (3, [("c", "d")])] (by decide)

/-! ## Claim C8 -/

/-- C8: creating an entity with a duplicate unique field — an organization
whose name is already used, a user or a signup whose email is already
registered — fails with the Conflict error and returns the stored state
unchanged (the duplicate check precedes every mutation in all three
handlers). -/
theorem C8_duplicate_create_conflict (db : DB) (now : Int)
    (org_in : schemas.OrgCreate) (user_in : schemas.UserCreate)
    (su_in : openapi_schemas.UserCreate)
    (horg : (db.orgs.any fun o => o.name == org_in.name) = true)
    (huser : (db.users.any fun u => u.email == user_in.email) = true)
    (hsu : (db.users.any fun u => u.email == su_in.email) = true) :
    create_org db org_in now = (.error .conflict, db) ∧
    create_user db user_in now = (.error .conflict, db) ∧
    signup db su_in now = (.error .conflict, db) := by
  refine ⟨?_, ?_, ?_⟩
  · unfold create_org
    rw [if_pos horg]
  · unfold create_user
    rw [if_pos huser]
  · unfold signup
    rw [if_pos hsu]

/-- Witness for C8: one stored org and user, and requests duplicating their
name and email. -/
theorem C8_duplicate_create_conflict_witness :
    create_org
      { orgs := [{ id := 1, name := "Acme", description := none,
                   subdomain := none, primary_color := none,
                   secondary_color := none, accent_color := none,
                   logo_url := none, created_at := 0 }],
        roles := [],
        users := [{ id := 1, org_id := some 1, email := "a@b.c",
                    hashed_password := "bcrypt$pw123456",
                    first_name := "a", last_name := "b", phone := none,
                    is_active := true, preferred_language := none,
                    created_at := 0, parent_id := none }],
        groups := [], events := [], subscriptions := [], payments := [],
        transactions := [], user_roles := [], user_groups := [],
        event_attendees := [] }
      { name := "Acme", description := none, subdomain := none,
        primary_color := none, secondary_color := none,
        accent_color := none, logo_url := none } 5 =
      (.error .conflict,
       { orgs := [{ id := 1, name := "Acme", description := none,
                    subdomain := none, primary_color := none,
                    secondary_color := none, accent_color := none,
                    logo_url := none, created_at := 0 }],
         roles := [],
         users := [{ id := 1, org_id := some 1, email := "a@b.c",
                     hashed_password := "bcrypt$pw123456",
                     first_name := "a", last_name := "b", phone := none,
                     is_active := true, preferred_language := none,
                     created_at := 0, parent_id := none }],
         groups := [], events := [], subscriptions := [], payments := [],
         transactions := [], user_roles := [], user_groups := [],
         event_attendees := [] }) ∧
    create_user
      { orgs := [{ id := 1, name := "Acme", description := none,
                   subdomain := none, primary_color := none,
                   secondary_color := none, accent_color := none,
                   logo_url := none, created_at := 0 }],
        roles := [],
        users := [{ id := 1, org_id := some 1, email := "a@b.c",
                    hashed_password := "bcrypt$pw123456",
                    first_name := "a", last_name := "b", phone := none,
                    is_active := true, preferred_language := none,
                    created_at := 0, parent_id := none }],
        groups := [], events := [], subscriptions := [], payments := [],
        transactions := [], user_roles := [], user_groups := [],
        event_attendees := [] }
      { email := "a@b.c", first_name := "x", last_name := "y",
        phone := none, preferred_language := none, password := "pw999999",
        org_id := none, roles := [], parent_id := none } 5 =
      (.error .conflict,
       { orgs := [{ id := 1, name := "Acme", description := none,
                    subdomain := none, primary_color := none,
                    secondary_color := none, accent_color := none,
                    logo_url := none, created_at := 0 }],
         roles := [],
         users := [{ id := 1, org_id := some 1, email := "a@b.c",
                     hashed_password := "bcrypt$pw123456",
                     first_name := "a", last_name := "b", phone := none,
                     is_active := true, preferred_language := none,
                     created_at := 0, parent_id := none }],
         groups := [], events := [], subscriptions := [], payments := [],
         transactions := [], user_roles := [], user_groups := [],
         event_attendees := [] }) ∧
    signup
      { orgs := [{ id := 1, name := "Acme", description := none,
                   subdomain := none, primary_color := none,
                   secondary_color := none, accent_color := none,
                   logo_url := none, created_at := 0 }],
        roles := [],
        users := [{ id := 1, org_id := some 1, email := "a@b.c",
                    hashed_password := "bcrypt$pw123456",
                    first_name := "a", last_name := "b", phone := none,
                    is_active := true, preferred_language := none,
                    created_at := 0, parent_id := none }],
        groups := [], events := [], subscriptions := [], payments := [],
        transactions := [], user_roles := [], user_groups := [],
        event_attendees := [] }
      { email := "a@b.c", first_name := "x", last_name := "y",
        phone := none, password := "pw999999", role := "Member" } 5 =
      (.error .conflict,
       { orgs := [{ id := 1, name := "Acme", description := none,
                    subdomain := none, primary_color := none,
                    secondary_color := none, accent_color := none,
                    logo_url := none, created_at := 0 }],
         roles := [],
         users := [{ id := 1, org_id := some 1, email := "a@b.c",
                     hashed_password := "bcrypt$pw123456",
                     first_name := "a", last_name := "b", phone := none,
                     is_active := true, preferred_language := none,
                     created_at := 0, parent_id := none }],
         groups := [], events := [], subscriptions := [], payments := [],
         transactions := [], user_roles := [], user_groups := [],
         event_attendees := [] }) :=
  C8_duplicate_create_conflict _ 5
    { name := "Acme", description := none, subdomain := none,
      primary_color := none, secondary_color := none,
      accent_color := none, logo_url := none }
    { email := "a@b.c", first_name := "x", last_name := "y",
      phone := none, preferred_language := none, password := "pw999999",
      org_id := none, roles := [], parent_id := none }
    { email := "a@b.c", first_name := "x", last_name := "y",
      phone := none, password := "pw999999", role := "Member" }
    (by decide) (by decide) (by decide)

/-! ## Claim C10 -/

theorem user_id_le_fold (l : List User) (u : User) (hu : u ∈ l) :
    u.id ≤ l.foldr (fun x m => max x.id m) 0 := by
  induction l with
  | nil => cases hu
  | cons a tl ih =>
    rcases List.mem_cons.mp hu with h | h
    · subst h
      exact le_max_left _ _
    · exact le_trans (ih h) (le_max_right _ _)

theorem fresh_user_id_not_mem (db : DB) :
    fresh_user_id db ∉ db.users.map User.id := by
  intro h
  obtain ⟨u, hu, hid⟩ := List.mem_map.mp h
  have := user_id_le_fold db.users u hu
  unfold fresh_user_id at hid
  omega

theorem contains_pair_false (rows : List (Nat × Nat)) (uids : List Nat)
    (uid x : Nat) (hall : ∀ p ∈ rows, p.1 ∈ uids) (hfresh : uid ∉ uids) :
    rows.contains (uid, x) = false := by
  induction rows with
  | nil => rfl
  | cons p tl ih =>
    rw [List.contains_cons]
    have hp1 : p.1 ∈ uids := hall p (List.mem_cons_self p tl)
    have hne : ((uid, x) == p) = false := by
      refine beq_eq_false_iff_ne.mpr ?_
      intro h
      rw [← h] at hp1
      exact hfresh hp1
    rw [hne, ih (fun q hq => hall q (List.mem_cons_of_mem p hq)),
      Bool.or_false]

theorem filter_roles_by_id (l : List Role) (m : Role)
    (hnd : (l.map Role.id).Nodup) (hm : m ∈ l) :
    l.filter (fun r => r.id == m.id) = [m] := by
  induction l with
  | nil => cases hm
  | cons a tl ih =>
    rw [List.map_cons, List.nodup_cons] at hnd
    obtain ⟨hna, hndtl⟩ := hnd
    rcases List.mem_cons.mp hm with h | h
    · subst h
      rw [List.filter_cons_of_pos (by simp)]
      have hnil : tl.filter (fun r => r.id == m.id) = [] := by
        rw [List.filter_eq_nil_iff]
        intro x hx
        simp only [beq_iff_eq]
        intro he
        exact hna (he ▸ List.mem_map_of_mem Role.id hx)
      rw [hnil]
    · have hane : (a.id == m.id) = false := by
        refine beq_eq_false_iff_ne.mpr ?_
        intro he
        exact hna (he ▸ List.mem_map_of_mem Role.id h)
      rw [List.filter_cons_of_neg (by simp [hane])]
      exact ih hndtl h

theorem signup_insert_roles (db : DB) (user_in : openapi_schemas.UserCreate)
    (role_obj : Role) (now : Int)
    (hrows : ∀ p ∈ db.user_roles, p.1 ∈ db.users.map User.id)
    (hroleids : (db.roles.map Role.id).Nodup)
    (hrole_mem : role_obj ∈ db.roles) :
    (signup_insert db user_in role_obj now).1.roles = [role_obj.name] := by
  have h0 : (signup_insert db user_in role_obj now).1.roles =
      (db.roles.filter (fun r =>
        (db.user_roles ++ [(fresh_user_id db, role_obj.id)]).contains
          (fresh_user_id db, r.id))).map Role.name := rfl
  rw [h0]
  have hfilter : db.roles.filter (fun r =>
      (db.user_roles ++ [(fresh_user_id db, role_obj.id)]).contains
        (fresh_user_id db, r.id)) =
      db.roles.filter (fun r => r.id == role_obj.id) := by
    apply List.filter_congr
    intro r _
    rw [List.contains_eq_any_beq, List.any_append,
      ← List.contains_eq_any_beq, ← List.contains_eq_any_beq,
      contains_pair_false db.user_roles (db.users.map User.id) _ _ hrows
        (fresh_user_id_not_mem db),
      Bool.false_or, List.contains_cons]
    show ((fresh_user_id db == fresh_user_id db) && (r.id == role_obj.id)
      || List.contains [] (fresh_user_id db, r.id)) = (r.id == role_obj.id)
    simp
  rw [hfilter, filter_roles_by_id db.roles role_obj hroleids hrole_mem,
    List.map_cons, List.map_nil]

/-- C10: a signup whose requested role name matches no existing role row is
not rejected: when a Member role row exists, the user is created active and
is assigned exactly the Member role as fallback, so the signed-up user has
a role. The hypotheses are the referential integrity of `user_roles` and
primary-key uniqueness of `roles`. -/
theorem C10_signup_member_fallback (db : DB)
    (user_in : openapi_schemas.UserCreate) (now : Int) (m : Role)
    (hnorole : db.roles.find? (fun r => r.name == user_in.role) = none)
    (hmember : db.roles.find? (fun r => r.name == "Member") = some m)
    (hfresh : (db.users.any fun u => u.email == user_in.email) = false)
    (hrows : ∀ p ∈ db.user_roles, p.1 ∈ db.users.map User.id)
    (hroleids : (db.roles.map Role.id).Nodup) :
    ∃ out : openapi_schemas.UserOut,
      (signup db user_in now).1 = .ok out ∧ out.roles = ["Member"] ∧
      out.is_active = true := by
  have hmName : m.name = "Member" := by simpa using List.find?_some hmember
  have hmMem : m ∈ db.roles := List.mem_of_find?_eq_some hmember
  refine ⟨(signup_insert db user_in m now).1, ?_, ?_, rfl⟩
  · unfold signup
    rw [hfresh, if_neg (by simp), hnorole, hmember]
  · rw [signup_insert_roles db user_in m now hrows hroleids hmMem, hmName]

/-- Witness for C10: a signup requesting the nonexistent role name
"Wizard" against a role table holding only Member. -/
theorem C10_signup_member_fallback_witness :
    ∃ out : openapi_schemas.UserOut,
      (signup
        { orgs := [], roles := [{ id := 3, name := "Member",
                                  description := "Member role" }],
          users := [], groups := [], events := [], subscriptions := [],
          payments := [], transactions := [], user_roles := [],
          user_groups := [], event_attendees := [] }
        { email := "new@b.c", first_name := "n", last_name := "u",
          phone := none, password := "pw123456", role := "Wizard" }
        9).1 = .ok out ∧ out.roles = ["Member"] ∧ out.is_active = true :=
  C10_signup_member_fallback _
    { email := "new@b.c", first_name := "n", last_name := "u",
      phone := none, password := "pw123456", role := "Wizard" }
    9 { id := 3, name := "Member", description := "Member role" }
    (by decide) (by decide) (by decide) (by decide) (by decide)

/-! ## Claim C7

The claim says deleting an organization deletes its users. The declared
delete policy of `users.org_id` in models.py is `ondelete="SET NULL"`, and
`delete_org` deletes the org with `passive_deletes=True` relationships and
unloaded collections, so the database applies the column policies: the
users of the org survive with a nulled org reference, while groups and
events cascade. The counterexample below exhibits a surviving user; the
amended theorem proves the policy-faithful statement, including that no
foreign key dangles afterwards.
-/

/-- Counterexample to C7 as stated: a database whose single user belongs to
the deleted org; the delete succeeds, yet the user row survives (with its
org reference set to null), so the delete does not delete the org's users. -/
theorem C7_org_delete_counterexample :
    ((delete_org
        { orgs := [{ id := 1, name := "Acme", description := none,
                     subdomain := none, primary_color := none,
                     secondary_color := none, accent_color := none,
                     logo_url := none, created_at := 0 }],
          roles := [],
          users := [{ id := 1, org_id := some 1, email := "a@b.c",
                      hashed_password := "bcrypt$pw123456",
                      first_name := "a", last_name := "b", phone := none,
                      is_active := true, preferred_language := none,
                      created_at := 0, parent_id := none }],
          groups := [], events := [], subscriptions := [], payments := [],
          transactions := [], user_roles := [], user_groups := [],
          event_attendees := [] }
        1).1 = .ok ()) ∧
    ((delete_org
        { orgs := [{ id := 1, name := "Acme", description := none,
                     subdomain := none, primary_color := none,
                     secondary_color := none, accent_color := none,
                     logo_url := none, created_at := 0 }],
          roles := [],
          users := [{ id := 1, org_id := some 1, email := "a@b.c",
                      hashed_password := "bcrypt$pw123456",
                      first_name := "a", last_name := "b", phone := none,
                      is_active := true, preferred_language := none,
                      created_at := 0, parent_id := none }],
          groups := [], events := [], subscriptions := [], payments := [],
          transactions := [], user_roles := [], user_groups := [],
          event_attendees := [] }
        1).2.users.map User.id = [1]) ∧
    ((delete_org
        { orgs := [{ id := 1, name := "Acme", description := none,
                     subdomain := none, primary_color := none,
                     secondary_color := none, accent_color := none,
                     logo_url := none, created_at := 0 }],
          roles := [],
          users := [{ id := 1, org_id := some 1, email := "a@b.c",
                      hashed_password := "bcrypt$pw123456",
                      first_name := "a", last_name := "b", phone := none,
                      is_active := true, preferred_language := none,
                      created_at := 0, parent_id := none }],
          groups := [], events := [], subscriptions := [], payments := [],
          transactions := [], user_roles := [], user_groups := [],
          event_attendees := [] }
        1).2.users.map User.org_id = [none]) := by
  refine ⟨rfl, rfl, rfl⟩

theorem opt_fk_ok_iff (r : Option Nat) (ids : List Nat) :
    opt_fk_ok r ids = true ↔ ∀ i, r = some i → i ∈ ids := by
  cases r with
  | none => simp [opt_fk_ok]
  | some i => simp [opt_fk_ok, List.contains]

theorem nat_contains_iff (ids : List Nat) (i : Nat) :
    ids.contains i = true ↔ i ∈ ids := by
  simp [List.contains]

theorem users_map_id_delete (db : DB) (oid : Nat) :
    (delete_org_state db oid).users.map User.id = db.users.map User.id := by
  show (db.users.map (fun u =>
    if u.org_id == some oid then { u with org_id := none } else u)).map
      User.id = db.users.map User.id
  rw [List.map_map]
  apply List.map_congr_left
  intro u _
  show (if (u.org_id == some oid) = true
    then { u with org_id := none } else u).id = u.id
  by_cases hc : (u.org_id == some oid) = true
  · rw [if_pos hc]
  · rw [if_neg hc]

theorem org_id_survives (db : DB) (oid i : Nat)
    (hmem : i ∈ db.orgs.map Org.id) (hne : i ≠ oid) :
    i ∈ (delete_org_state db oid).orgs.map Org.id := by
  obtain ⟨o, ho, hoid⟩ := List.mem_map.mp hmem
  refine List.mem_map.mpr ⟨o, ?_, hoid⟩
  show o ∈ db.orgs.filter fun x => x.id != oid
  rw [List.mem_filter]
  exact ⟨ho, by simp [bne_iff_ne, hoid ▸ hne]⟩

theorem group_id_survives (db : DB) (oid gid : Nat)
    (hmem : gid ∈ db.groups.map Group.id)
    (hkeep : (db.groups.any fun g =>
      g.id == gid && g.org_id == some oid) = false) :
    gid ∈ (delete_org_state db oid).groups.map Group.id := by
  obtain ⟨g, hg, hgid⟩ := List.mem_map.mp hmem
  refine List.mem_map.mpr ⟨g, ?_, hgid⟩
  show g ∈ db.groups.filter fun x => x.org_id != some oid
  rw [List.mem_filter]
  refine ⟨hg, ?_⟩
  rw [List.any_eq_false] at hkeep
  have := hkeep g hg
  rw [Bool.and_eq_true, not_and] at this
  have h2 := this (by simp [hgid])
  simp only [bne_iff_ne, ne_eq]
  intro hx
  exact h2 (by simp [hx])

theorem event_id_survives (db : DB) (oid eid : Nat)
    (hmem : eid ∈ db.events.map Event.id)
    (hkeep : (db.events.any fun e =>
      e.id == eid && e.org_id == some oid) = false) :
    eid ∈ (delete_org_state db oid).events.map Event.id := by
  obtain ⟨e, he, heid⟩ := List.mem_map.mp hmem
  refine List.mem_map.mpr ⟨e, ?_, heid⟩
  show e ∈ db.events.filter fun x => x.org_id != some oid
  rw [List.mem_filter]
  refine ⟨he, ?_⟩
  rw [List.any_eq_false] at hkeep
  have := hkeep e he
  rw [Bool.and_eq_true, not_and] at this
  have h2 := this (by simp [heid])
  simp only [bne_iff_ne, ne_eq]
  intro hx
  exact h2 (by simp [hx])

theorem no_dangling_fk_delete_org (db : DB) (oid : Nat)
    (h : no_dangling_fk db = true) :
    no_dangling_fk (delete_org_state db oid) = true := by
  simp only [no_dangling_fk, Bool.and_eq_true, List.all_eq_true] at h ⊢
  obtain ⟨⟨⟨⟨⟨⟨⟨⟨hu, hg⟩, he⟩, hs⟩, hp⟩, ht⟩, hur⟩, hug⟩, hea⟩ := h
  have hids := users_map_id_delete db oid
  refine ⟨⟨⟨⟨⟨⟨⟨⟨?_, ?_⟩, ?_⟩, ?_⟩, ?_⟩, ?_⟩, ?_⟩, ?_⟩, ?_⟩
  · -- users: org ref nulled or surviving org; parent among unchanged ids
    intro x hx
    obtain ⟨u, hu0, hx⟩ := List.mem_map.mp hx
    obtain ⟨huo, hup⟩ := hu u hu0
    constructor
    · rw [opt_fk_ok_iff] at huo ⊢
      intro i hi
      rw [← hx] at hi
      by_cases hc : (u.org_id == some oid) = true
      · rw [if_pos hc] at hi
        exact absurd hi (by simp)
      · rw [if_neg hc] at hi
        have hioid : i ≠ oid := fun hieq => hc (by simp [hi, hieq])
        exact org_id_survives db oid i (huo i hi) hioid
    · rw [opt_fk_ok_iff] at hup ⊢
      intro i hi
      rw [hids]
      rw [← hx] at hi
      by_cases hc : (u.org_id == some oid) = true
      · rw [if_pos hc] at hi
        exact hup i hi
      · rw [if_neg hc] at hi
        exact hup i hi
  · -- groups: surviving groups reference the surviving org
    intro g hg2
    rw [show (delete_org_state db oid).groups =
      db.groups.filter (fun x => x.org_id != some oid) from rfl,
      List.mem_filter] at hg2
    obtain ⟨hg0, hgne⟩ := hg2
    have h1 := hg g hg0
    rw [opt_fk_ok_iff] at h1 ⊢
    intro i hi
    have hioid : i ≠ oid := by
      intro hieq
      subst hieq
      rw [bne_iff_ne, ne_eq] at hgne
      exact hgne hi
    exact org_id_survives db oid i (h1 i hi) hioid
  · -- events: surviving events reference the surviving org and users
    intro e he2
    rw [show (delete_org_state db oid).events =
      db.events.filter (fun x => x.org_id != some oid) from rfl,
      List.mem_filter] at he2
    obtain ⟨he0, hene⟩ := he2
    obtain ⟨heo, heu⟩ := he e he0
    constructor
    · rw [opt_fk_ok_iff] at heo ⊢
      intro i hi
      have hioid : i ≠ oid := by
        intro hieq
        subst hieq
        rw [bne_iff_ne, ne_eq] at hene
        exact hene hi
      exact org_id_survives db oid i (heo i hi) hioid
    · rw [opt_fk_ok_iff] at heu ⊢
      intro i hi
      rw [hids]
      exact heu i hi
  · -- subscriptions: unchanged, user ids unchanged
    intro s hs0
    rw [nat_contains_iff, hids, ← nat_contains_iff]
    exact hs s hs0
  · -- payments: unchanged, user and subscription ids unchanged
    intro p hp0
    obtain ⟨hpm, hps⟩ := hp p hp0
    constructor
    · rw [opt_fk_ok_iff] at hpm ⊢
      intro i hi
      rw [hids]
      exact hpm i hi
    · exact hps
  · -- transactions: unchanged, user ids unchanged
    intro t ht0
    have h1 := ht t ht0
    rw [opt_fk_ok_iff] at h1 ⊢
    intro i hi
    rw [hids]
    exact h1 i hi
  · -- user_roles: rows, users and roles unchanged
    intro p hp0
    obtain ⟨h1, h2⟩ := hur p hp0
    rw [nat_contains_iff, hids, ← nat_contains_iff]
    exact ⟨h1, h2⟩
  · -- user_groups: surviving rows reference surviving groups
    intro p hp2
    rw [show (delete_org_state db oid).user_groups =
      db.user_groups.filter (fun q => !(db.groups.any fun g =>
        g.id == q.2 && g.org_id == some oid)) from rfl,
      List.mem_filter] at hp2
    obtain ⟨hp0, hpk⟩ := hp2
    obtain ⟨h1, h2⟩ := hug p hp0
    constructor
    · rw [nat_contains_iff, hids, ← nat_contains_iff]
      exact h1
    · rw [nat_contains_iff]
      exact group_id_survives db oid p.2
        ((nat_contains_iff _ _).mp h2) (by simpa using hpk)
  · -- event_attendees: surviving rows reference surviving events
    intro p hp2
    rw [show (delete_org_state db oid).event_attendees =
      db.event_attendees.filter (fun q => !(db.events.any fun e =>
        e.id == q.2 && e.org_id == some oid)) from rfl,
      List.mem_filter] at hp2
    obtain ⟨hp0, hpk⟩ := hp2
    obtain ⟨h1, h2⟩ := hea p hp0
    constructor
    · rw [nat_contains_iff, hids, ← nat_contains_iff]
      exact h1
    · rw [nat_contains_iff]
      exact event_id_survives db oid p.2
        ((nat_contains_iff _ _).mp h2) (by simpa using hpk)

/-- C7 amended: deleting an organization cascades to delete its groups and
events (with their association rows), and detaches its users by nulling
their org reference rather than deleting them; user rows are preserved (so
event organizer references stay valid without nulling), and a state with no
dangling foreign key is taken to a state with no dangling foreign key. -/
theorem C7_org_delete_amended (db : DB) (oid : Nat)
    (h : no_dangling_fk db = true) :
    ((delete_org_state db oid).orgs.all fun o => o.id != oid) = true ∧
    ((delete_org_state db oid).groups.all
      fun g => g.org_id != some oid) = true ∧
    ((delete_org_state db oid).events.all
      fun e => e.org_id != some oid) = true ∧
    (delete_org_state db oid).users.map User.id = db.users.map User.id ∧
    ((delete_org_state db oid).users.all
      fun u => u.org_id != some oid) = true ∧
    no_dangling_fk (delete_org_state db oid) = true := by
  refine ⟨?_, ?_, ?_, users_map_id_delete db oid, ?_,
    no_dangling_fk_delete_org db oid h⟩
  · rw [List.all_eq_true]
    intro o ho
    exact (List.mem_filter.mp ho).2
  · rw [List.all_eq_true]
    intro g hg
    exact (List.mem_filter.mp hg).2
  · rw [List.all_eq_true]
    intro e he
    exact (List.mem_filter.mp he).2
  · rw [List.all_eq_true]
    intro x hx
    obtain ⟨u, _, hx⟩ := List.mem_map.mp hx
    by_cases hc : (u.org_id == some oid) = true
    · rw [← hx, if_pos hc]
      simp
    · rw [← hx, if_neg hc]
      simpa using hc

/-- Witness for C7 amended at a concrete populated database: an org with a
user, a group, an event attended by the user, plus a second org. -/
theorem C7_org_delete_amended_witness :
    no_dangling_fk
      { orgs := [{ id := 1, name := "Acme", description := none,
                   subdomain := none, primary_color := none,
                   secondary_color := none, accent_color := none,
                   logo_url := none, created_at := 0 },
                 { id := 2, name := "Beta", description := none,
                   subdomain := none, primary_color := none,
                   secondary_color := none, accent_color := none,
                   logo_url := none, created_at := 0 }],
        roles := [],
        users := [{ id := 1, org_id := some 1, email := "a@b.c",
                    hashed_password := "bcrypt$pw123456",
                    first_name := "a", last_name := "b", phone := none,
                    is_active := true, preferred_language := none,
                    created_at := 0, parent_id := none }],
        groups := [{ id := 4, org_id := some 1, name := "Fam",
                     description := none }],
        events := [{ id := 5, org_id := some 1, title := "Gala",
                     description := none, date := 10, start_time := none,
                     end_time := none, location := none, capacity := none,
                     fee := none, organizer_id := some 1,
                     qr_code_url := none }],
        subscriptions := [], payments := [], transactions := [],
        user_roles := [], user_groups := [(1, 4)],
        event_attendees := [(1, 5)] } = true ∧
    (((delete_org_state
      { orgs := [{ id := 1, name := "Acme", description := none,
                   subdomain := none, primary_color := none,
                   secondary_color := none, accent_color := none,
                   logo_url := none, created_at := 0 },
                 { id := 2, name := "Beta", description := none,
                   subdomain := none, primary_color := none,
                   secondary_color := none, accent_color := none,
                   logo_url := none, created_at := 0 }],
        roles := [],
        users := [{ id := 1, org_id := some 1, email := "a@b.c",
                    hashed_password := "bcrypt$pw123456",
                    first_name := "a", last_name := "b", phone := none,
                    is_active := true, preferred_language := none,
                    created_at := 0, parent_id := none }],
        groups := [{ id := 4, org_id := some 1, name := "Fam",
                     description := none }],
        events := [{ id := 5, org_id := some 1, title := "Gala",
                     description := none, date := 10, start_time := none,
                     end_time := none, location := none, capacity := none,
                     fee := none, organizer_id := some 1,
                     qr_code_url := none }],
        subscriptions := [], payments := [], transactions := [],
        user_roles := [], user_groups := [(1, 4)],
        event_attendees := [(1, 5)] } 1).users.map User.id = [1]) ∧
    no_dangling_fk (delete_org_state
      { orgs := [{ id := 1, name := "Acme", description := none,
                   subdomain := none, primary_color := none,
                   secondary_color := none, accent_color := none,
                   logo_url := none, created_at := 0 },
                 { id := 2, name := "Beta", description := none,
                   subdomain := none, primary_color := none,
                   secondary_color := none, accent_color := none,
                   logo_url := none, created_at := 0 }],
        roles := [],
        users := [{ id := 1, org_id := some 1, email := "a@b.c",
                    hashed_password := "bcrypt$pw123456",
                    first_name := "a", last_name := "b", phone := none,
                    is_active := true, preferred_language := none,
                    created_at := 0, parent_id := none }],
        groups := [{ id := 4, org_id := some 1, name := "Fam",
                     description := none }],
        events := [{ id := 5, org_id := some 1, title := "Gala",
                     description := none, date := 10, start_time := none,
                     end_time := none, location := none, capacity := none,
                     fee := none, organizer_id := some 1,
                     qr_code_url := none }],
        subscriptions := [], payments := [], transactions := [],
        user_roles := [], user_groups := [(1, 4)],
        event_attendees := [(1, 5)] } 1) = true) :=
  ⟨by decide,
   (C7_org_delete_amended
     { orgs := [{ id := 1, name := "Acme", description := none,
                  subdomain := none, primary_color := none,
                  secondary_color := none, accent_color := none,
                  logo_url := none, created_at := 0 },
                { id := 2, name := "Beta", description := none,
                  subdomain := none, primary_color := none,
                  secondary_color := none, accent_color := none,
                  logo_url := none, created_at := 0 }],
       roles := [],
       users := [{ id := 1, org_id := some 1, email := "a@b.c",
                   hashed_password := "bcrypt$pw123456",
                   first_name := "a", last_name := "b", phone := none,
                   is_active := true, preferred_language := none,
                   created_at := 0, parent_id := none }],
       groups := [{ id := 4, org_id := some 1, name := "Fam",
                    description := none }],
       events := [{ id := 5, org_id := some 1, title := "Gala",
                    description := none, date := 10, start_time := none,
                    end_time := none, location := none, capacity := none,
                    fee := none, organizer_id := some 1,
                    qr_code_url := none }],
       subscriptions := [], payments := [], transactions := [],
       user_roles := [], user_groups := [(1, 4)],
       event_attendees := [(1, 5)] } 1 (by decide)).2.2.2.1,
   (C7_org_delete_amended
     { orgs := [{ id := 1, name := "Acme", description := none,
                  subdomain := none, primary_color := none,
                  secondary_color := none, accent_color := none,
                  logo_url := none, created_at := 0 },
                { id := 2, name := "Beta", description := none,
                  subdomain := none, primary_color := none,
                  secondary_color := none, accent_color := none,
                  logo_url := none, created_at := 0 }],
       roles := [],
       users := [{ id := 1, org_id := some 1, email := "a@b.c",
                   hashed_password := "bcrypt$pw123456",
                   first_name := "a", last_name := "b", phone := none,
                   is_active := true, preferred_language := none,
                   created_at := 0, parent_id := none }],
       groups := [{ id := 4, org_id := some 1, name := "Fam",
                    description := none }],
       events := [{ id := 5, org_id := some 1, title := "Gala",
                    description := none, date := 10, start_time := none,
                    end_time := none, location := none, capacity := none,
                    fee := none, organizer_id := some 1,
                    qr_code_url := none }],
       subscriptions := [], payments := [], transactions := [],
       user_roles := [], user_groups := [(1, 4)],
       event_attendees := [(1, 5)] } 1 (by decide)).2.2.2.2.2⟩

end MemberSphere
